import Mathlib

/-!
Verification of the auth, connector and dashboard modules of the
`panel_site` repository, via a shallow embedding in Lean.

Modelling conventions:
- Python `str` passwords are taken to their UTF-8 byte sequences
  (`List Nat`), mirroring `password.encode('utf-8')` in `app/auth.py`.
- The external `bcrypt` library is idealised: `hashpw` truncates the
  password to 72 bytes (documented bcrypt behaviour) and its digest is
  modelled as the truncated byte sequence itself, i.e. the blowfish core
  is idealised as collision-free.  `checkpw` re-hashes with the salt
  embedded in the stored hash and compares, as the library does.
  (The library's rejection of NUL bytes is not modelled.)
- The process-global in-memory dictionaries `IN_MEMORY_USERS` and
  `IN_MEMORY_SESSIONS` become explicit association-list stores threaded
  through each function; Python dict assignment / lookup / `del` become
  `storeInsert` / `List.lookup` / `eraseKey`.
- `os.urandom(16).hex()` and `datetime.datetime.utcnow()` are modelled
  as explicit `token : String` and `now : Nat` (seconds) parameters;
  `timedelta(hours=1)` is 3600 seconds.
- Side effects that matter to a claim (invoking `close()` on the HANA
  handle) are recorded in the function's result.
-/

/-- UTF-8 encoding of a single character, as the list of its bytes. -/
def utf8EncodeCharBytes (c : Char) : List Nat :=
  let n := c.toNat
  if n < 0x80 then [n]
  else if n < 0x800 then
    [0xC0 ||| (n >>> 6), 0x80 ||| (n &&& 0x3F)]
  else if n < 0x10000 then
    [0xE0 ||| (n >>> 12), 0x80 ||| ((n >>> 6) &&& 0x3F), 0x80 ||| (n &&& 0x3F)]
  else
    [0xF0 ||| (n >>> 18), 0x80 ||| ((n >>> 12) &&& 0x3F),
     0x80 ||| ((n >>> 6) &&& 0x3F), 0x80 ||| (n &&& 0x3F)]

/-- UTF-8 bytes of a string: the model of Python's `s.encode('utf-8')`. -/
def utf8Bytes (s : String) : List Nat :=
  s.data.flatMap utf8EncodeCharBytes

/-- bcrypt only uses the first 72 bytes of a password. -/
def BCRYPT_TRUNC : Nat := 72

/-- A bcrypt hash blob: it embeds the salt and the digest.  The digest is
idealised as the truncated password bytes themselves (a collision-free
core hash), which is exactly the structure the algebraic claims need. -/
structure BcryptHash where
  salt : Nat
  digest : List Nat
deriving DecidableEq

/-- Model of `bcrypt.hashpw(password, salt)`: truncates the password to
72 bytes and produces the salted blob. -/
def hashpw (passwordBytes : List Nat) (salt : Nat) : BcryptHash :=
  ⟨salt, passwordBytes.take BCRYPT_TRUNC⟩

/-- Model of `bcrypt.checkpw(password, hashed)`: re-hash the candidate
with the salt embedded in the stored blob and compare blobs. -/
def checkpw (passwordBytes : List Nat) (hashed : BcryptHash) : Bool :=
  hashpw passwordBytes hashed.salt == hashed

/-- `app/auth.py` `hash_password`: bcrypt-hash the UTF-8 encoded
password with a fresh salt (the salt drawn by `bcrypt.gensalt()` is an
explicit parameter here). -/
def hash_password (password : String) (salt : Nat) : BcryptHash :=
  hashpw (utf8Bytes password) salt

/-- `app/auth.py` `verify_password`: check the plain password against a
stored bcrypt hash. -/
def verify_password (plain_password : String) (hashed_password : BcryptHash) : Bool :=
  checkpw (utf8Bytes plain_password) hashed_password

/-! ### Association-list stores (the in-memory fallback dictionaries) -/

/-- Remove every binding of key `k` (Python `del d[k]`, and the
overwritten binding on assignment). -/
def eraseKey (k : String) (s : List (String × α)) : List (String × α) :=
  s.filter (fun p => p.1 != k)

/-- Python dict assignment `d[k] = v`: the new binding shadows/replaces
any previous binding of `k`. -/
def storeInsert (k : String) (v : α) (s : List (String × α)) : List (String × α) :=
  (k, v) :: eraseKey k s

/-! ### Users -/

/-- The in-memory user record: `{"email": ..., "password_hash": ...}`. -/
structure UserData where
  email : String
  password_hash : BcryptHash
deriving DecidableEq

/-- The `IN_MEMORY_USERS` dictionary, keyed by username. -/
abbrev UserStore := List (String × UserData)

/-- `app/auth.py` `create_user` (in-memory branch): hash the password and
store the record under the username; returns the stored record and the
updated store. -/
def create_user (username email password : String) (salt : Nat)
    (store : UserStore) : UserData × UserStore :=
  let password_hash := hash_password password salt
  let record : UserData := ⟨email, password_hash⟩
  (record, storeInsert username record store)

/-- `app/auth.py` `authenticate_user` (in-memory branch): look the user
up by username and verify the password against the stored hash. -/
def authenticate_user (username password : String) (store : UserStore) :
    Option UserData :=
  match store.lookup username with
  | some user_data =>
      if verify_password password user_data.password_hash then some user_data
      else none
  | none => none

/-! ### Sessions -/

/-- The in-memory session record:
`{"user_id": ..., "expiry_timestamp": ...}`. -/
structure SessionData where
  user_id : Int
  expiry_timestamp : Nat
deriving DecidableEq

/-- The `IN_MEMORY_SESSIONS` dictionary, keyed by session token. -/
abbrev SessionStore := List (String × SessionData)

/-- `app/auth.py` `create_session` (in-memory branch): store a session
for `user_id` under the freshly generated token (`os.urandom(16).hex()`,
here the explicit `token` parameter) expiring one hour after `now`;
returns the token and the updated store. -/
def create_session (user_id : Int) (token : String) (now : Nat)
    (store : SessionStore) : String × SessionStore :=
  let expiry_timestamp := now + 3600
  (token, storeInsert token ⟨user_id, expiry_timestamp⟩ store)

/-- `app/auth.py` `get_session` (in-memory branch): return the session
only if it is present and its expiry is strictly in the future. -/
def get_session (token : String) (now : Nat) (store : SessionStore) :
    Option SessionData :=
  match store.lookup token with
  | some session_data =>
      if session_data.expiry_timestamp > now then some session_data else none
  | none => none

/-- `app/auth.py` `delete_session` (in-memory branch): delete the binding
if the token is present and report whether a deletion happened. -/
def delete_session (token : String) (store : SessionStore) :
    Bool × SessionStore :=
  if (store.lookup token).isSome then (true, eraseKey token store)
  else (false, store)

/-! ### HANA connector (`db/hana_connector.py`) -/

/-- ASCII whitespace stripped by Python's `int()` before parsing. -/
def isPySpace (c : Char) : Bool :=
  c == ' ' || c == '\t' || c == '\n' || c == '\r' ||
  c == Char.ofNat 11 || c == Char.ofNat 12

/-- Decimal digit test. -/
def isDigitChar (c : Char) : Bool := '0' ≤ c && c ≤ '9'

/-- Numeric value of a decimal digit character. -/
def digitVal (c : Char) : Nat := c.toNat - '0'.toNat

/-- Continuation of Python `int()` digit parsing: after at least one
digit, further digits may follow, with single underscores allowed only
between digits. -/
def pyDigitsRest (acc : Nat) : List Char → Option Nat
  | [] => some acc
  | '_' :: rest =>
      match rest with
      | c :: cs =>
          if isDigitChar c then pyDigitsRest (acc * 10 + digitVal c) cs else none
      | [] => none
  | c :: cs =>
      if isDigitChar c then pyDigitsRest (acc * 10 + digitVal c) cs else none

/-- Python `int()` digit-sequence parsing: at least one digit, single
underscores only between digits. -/
def pyDigits : List Char → Option Nat
  | [] => none
  | c :: cs => if isDigitChar c then pyDigitsRest (digitVal c) cs else none

/-- Model of Python `int(s)` on decimal strings: strips surrounding
ASCII whitespace, allows one optional sign, then a digit sequence
(underscores between digits); `none` models the `ValueError`. -/
def pyParseInt (s : String) : Option Int :=
  let cs := ((s.data.dropWhile isPySpace).reverse.dropWhile isPySpace).reverse
  match cs with
  | '+' :: rest => (pyDigits rest).map (fun n => (n : Int))
  | '-' :: rest => (pyDigits rest).map (fun n => -(n : Int))
  | rest => (pyDigits rest).map (fun n => (n : Int))

/-- The four `HANA_*` environment variables as seen by `os.getenv`
(`none` = unset). -/
structure HanaEnv where
  address : Option String
  port : Option String
  user : Option String
  password : Option String

/-- An established `hana_ml` `ConnectionContext`, as the parameters it
was opened with. -/
structure Conn where
  address : String
  port : Int
  user : String
  password : String
deriving DecidableEq

/-- `db/hana_connector.py` `get_hana_connection`: read the four
environment variables; if any is unset or empty (Python truthiness of
`all([...])`), return `None`; parse the port with `int()`, returning
`None` on a `ValueError`; attempt the connection, whose success is the
explicit `connectOk` parameter, returning `None` on any failure. -/
def get_hana_connection (env : HanaEnv) (connectOk : Bool) : Option Conn :=
  match env.address, env.port, env.user, env.password with
  | some address, some port, some user, some password =>
      if address.isEmpty || port.isEmpty || user.isEmpty || password.isEmpty then
        none
      else
        match pyParseInt port with
        | none => none
        | some portInt =>
            if connectOk then some ⟨address, portInt, user, password⟩ else none
  | _, _, _, _ => none

/-- A cell of a pandas DataFrame as used by the mock data. -/
inductive CellValue
  | intVal (n : Int)
  | strVal (s : String)
deriving DecidableEq

/-- A pandas DataFrame: column names and rows. -/
structure DataFrame where
  columns : List String
  rows : List (List CellValue)
deriving DecidableEq

/-- `pd.DataFrame()`: the empty frame. -/
def DataFrame.emptyDF : DataFrame := ⟨[], []⟩

/-- `df.empty`: the frame holds no rows. -/
def DataFrame.isEmpty (df : DataFrame) : Bool := df.rows.isEmpty

/-- The fixed `mock_data` table built in `get_sales_data`. -/
def sales_mock_data : DataFrame :=
  ⟨["OrderID", "Product", "Quantity", "Price"],
   [[.intVal 1, .strVal "Laptop",   .intVal 1, .intVal 1200],
    [.intVal 2, .strVal "Mouse",    .intVal 2, .intVal 25],
    [.intVal 3, .strVal "Keyboard", .intVal 1, .intVal 75],
    [.intVal 4, .strVal "Monitor",  .intVal 1, .intVal 300],
    [.intVal 5, .strVal "Webcam",   .intVal 3, .intVal 50]]⟩

/-- `db/hana_connector.py` `get_sales_data`: empty frame when no
connection is provided, otherwise the fixed mock table regardless of the
connection's contents (no real query is issued). -/
def get_sales_data (cc : Option Conn) : DataFrame :=
  match cc with
  | none => DataFrame.emptyDF
  | some _ => sales_mock_data

/-! ### Dashboard builder (`app/main.py`) -/

/-- The `MockUser` of `app/main.py`. -/
structure MockUser where
  username : String
deriving DecidableEq

/-- `pn.pane.Alert` `alert_type` values used by the builder. -/
inductive AlertType
  | danger
  | success
  | warning
deriving DecidableEq

/-- A UI component appended to `dashboard_components`. -/
inductive Component
  | markdown (text : String)
  | alert (message : String) (t : AlertType)
  | dataFramePane (name : String) (df : DataFrame)
deriving DecidableEq

/-- The value returned by `create_sales_dashboard`: a bare Markdown pane
on the no-user path, otherwise a `pn.Column` of components. -/
inductive View
  | markdownPane (text : String)
  | column (components : List Component)
deriving DecidableEq

/-- The builder's observable outcome: the view it returns, plus the
effect trace of whether `hana_conn.close()` was invoked. -/
structure DashboardResult where
  view : View
  closeAttempted : Bool
deriving DecidableEq

/-- Message of the no-user error pane. -/
def noUserErrorText : String := "## Error: No user context provided."

/-- Message of the danger alert shown when the connection fails. -/
def connectFailText : String :=
  "Error: Could not connect to SAP HANA. Please check connection details or environment variables."

/-- Message of the success alert shown when the connection succeeds. -/
def connectOkText : String := "Successfully connected to SAP HANA."

/-- Message of the warning alert shown when the fetched table is empty. -/
def noDataText : String :=
  "No sales data available or an error occurred during fetching."

/-- Message of the warning alert shown when closing the connection
raises, with the exception text interpolated. -/
def closeFailText (e : String) : String :=
  "Warning: Could not close SAP HANA connection: " ++ e

/-- The title Markdown pane for a user. -/
def dashboardTitle (u : MockUser) : Component :=
  Component.markdown ("# Sales Dashboard for " ++ u.username)

/-- `app/main.py` `create_sales_dashboard`, with the call to
`hana_connector.get_sales_data` abstracted as `fetch` (instantiated with
the real one in `create_sales_dashboard` below).  `connectOk` is whether
`ConnectionContext` succeeds; `closeErr` is `some e` when
`hana_conn.close()` raises an exception with text `e`.  Mirrors the
source line by line: error pane without a user; danger alert and empty
table pane when the connection is `None` (no close is attempted, since
no handle exists); otherwise success alert, fetch, warning alert and
empty pane on an empty frame or the populated pane, then a best-effort
close whose failure appends a warning alert; the table pane is always
appended last. -/
def create_sales_dashboard_with (fetch : Conn → DataFrame)
    (user : Option MockUser) (env : HanaEnv) (connectOk : Bool)
    (closeErr : Option String) : DashboardResult :=
  match user with
  | none => ⟨View.markdownPane noUserErrorText, false⟩
  | some u =>
      match get_hana_connection env connectOk with
      | none =>
          ⟨View.column [dashboardTitle u,
                        Component.alert connectFailText AlertType.danger,
                        Component.dataFramePane "Sales Data" DataFrame.emptyDF],
           false⟩
      | some hana_conn =>
          let sales_df := fetch hana_conn
          let fetchAlerts :=
            if sales_df.isEmpty then [Component.alert noDataText AlertType.warning]
            else []
          let sales_df_pane :=
            if sales_df.isEmpty then
              Component.dataFramePane "Sales Data" DataFrame.emptyDF
            else Component.dataFramePane "Sales Data" sales_df
          let closeAlerts :=
            match closeErr with
            | none => []
            | some e => [Component.alert (closeFailText e) AlertType.warning]
          ⟨View.column ([dashboardTitle u,
                         Component.alert connectOkText AlertType.success] ++
                        fetchAlerts ++ closeAlerts ++ [sales_df_pane]),
           true⟩

/-- `app/main.py` `create_sales_dashboard`: the builder with the real
`get_sales_data`. -/
def create_sales_dashboard (user : Option MockUser) (env : HanaEnv)
    (connectOk : Bool) (closeErr : Option String) : DashboardResult :=
  create_sales_dashboard_with (fun c => get_sales_data (some c))
    user env connectOk closeErr

/-! ### Store lemmas -/

theorem lookup_pair_cons (k a : String) (b : α) (l : List (String × α)) :
    ((a, b) :: l).lookup k = if k = a then some b else l.lookup k := by
  rw [List.lookup_cons]
  by_cases h : k = a
  · simp [h]
  · simp [h, beq_false_of_ne h]

theorem lookup_eraseKey_self (k : String) (s : List (String × α)) :
    (eraseKey k s).lookup k = none := by
  induction s with
  | nil => rfl
  | cons p rest ih =>
      obtain ⟨a, b⟩ := p
      by_cases h : a = k
      · simpa [eraseKey, List.filter_cons, h] using ih
      · simpa [eraseKey, List.filter_cons, h, lookup_pair_cons, Ne.symm h]
          using ih

theorem lookup_eraseKey_ne (k k' : String) (h : k' ≠ k)
    (s : List (String × α)) : (eraseKey k s).lookup k' = s.lookup k' := by
  induction s with
  | nil => rfl
  | cons p rest ih =>
      obtain ⟨a, b⟩ := p
      simp only [eraseKey] at ih
      by_cases hp : a = k
      · subst hp
        simp [eraseKey, List.filter_cons, lookup_pair_cons, h, ih]
      · simp [eraseKey, List.filter_cons, hp, lookup_pair_cons, ih]

theorem lookup_storeInsert_self (k : String) (v : α)
    (s : List (String × α)) : (storeInsert k v s).lookup k = some v := by
  simp [storeInsert, lookup_pair_cons]

theorem lookup_storeInsert_ne (k k' : String) (v : α) (h : k' ≠ k)
    (s : List (String × α)) :
    (storeInsert k v s).lookup k' = s.lookup k' := by
  simp [storeInsert, lookup_pair_cons, h, lookup_eraseKey_ne k k' h s]

/-! ### Claim C1 -/

/-- C1 (counterexample): the claim that `verify_password(other,
hash_password(password))` is false for every `other ≠ password` fails,
because bcrypt truncates passwords to 72 bytes: the 73-`a` password
verifies against the hash of the 72-`a` password although the two
differ. -/
theorem verify_password_truncation_counterexample :
    String.mk (List.replicate 73 'a') ≠ String.mk (List.replicate 72 'a') ∧
    verify_password (String.mk (List.replicate 73 'a'))
        (hash_password (String.mk (List.replicate 72 'a')) 0) = true := by
  constructor
  · decide
  · decide

/-- C1 (amended): for every password,
`verify_password(password, hash_password(password))` is true, and
`verify_password(other, hash_password(password))` is false for every
`other` whose UTF-8 encoding differs from the password's within the
first 72 bytes (the prefix bcrypt actually hashes). -/
theorem verify_password_roundtrip_and_mismatch (password other : String)
    (salt : Nat) :
    verify_password password (hash_password password salt) = true ∧
    ((utf8Bytes other).take BCRYPT_TRUNC ≠
        (utf8Bytes password).take BCRYPT_TRUNC →
      verify_password other (hash_password password salt) = false) := by
  constructor
  · simp [verify_password, hash_password, checkpw, hashpw]
  · intro hdiff
    simp [verify_password, hash_password, checkpw, hashpw,
          BcryptHash.mk.injEq, hdiff]

/-- C1 witness: the amended theorem applied to the concrete passwords
`"secret"` and `"other"`. -/
theorem verify_password_roundtrip_and_mismatch_witness :
    verify_password "secret" (hash_password "secret" 5) = true ∧
    verify_password "other" (hash_password "secret" 5) = false :=
  ⟨(verify_password_roundtrip_and_mismatch "secret" "other" 5).1,
   (verify_password_roundtrip_and_mismatch "secret" "other" 5).2 (by decide)⟩

/-! ### Claim C2 -/

/-- C2: for every user id, `create_session` followed immediately by
`get_session` with the returned token yields the session record with
that user id, and its expiry (creation time plus one hour) is strictly
later than the creation time. -/
theorem create_session_then_get_session (user_id : Int) (token : String)
    (now : Nat) (store : SessionStore) :
    get_session (create_session user_id token now store).1 now
        (create_session user_id token now store).2 =
      some ⟨user_id, now + 3600⟩ ∧ now < now + 3600 := by
  constructor
  · simp [create_session, get_session, lookup_storeInsert_self,
          (show now < now + 3600 by omega)]
  · omega

/-! ### Claim C3 -/

/-- C3: `get_session` returns `none` on a stored session whose expiry is
not strictly later than the current time, and returns a record only when
the token is found and its expiry is strictly in the future. -/
theorem get_session_expiry_spec (token : String) (now : Nat)
    (store : SessionStore) :
    (∀ s, store.lookup token = some s → s.expiry_timestamp ≤ now →
        get_session token now store = none) ∧
    (∀ s, get_session token now store = some s →
        store.lookup token = some s ∧ now < s.expiry_timestamp) := by
  unfold get_session
  constructor
  · intro s hs hle
    simp only [hs]
    rw [if_neg (by omega)]
  · intro s hres
    cases hlk : store.lookup token with
    | none => simp [hlk] at hres
    | some sFound =>
        simp only [hlk] at hres
        by_cases hgt : sFound.expiry_timestamp > now
        · rw [if_pos hgt] at hres
          obtain rfl := Option.some.inj hres
          exact ⟨rfl, hgt⟩
        · rw [if_neg hgt] at hres
          cases hres

/-- C3 witness: a session stored with expiry 10 is absent at time 10
(expiry not strictly later than now). -/
theorem get_session_expiry_spec_witness :
    get_session "tok" 10 [("tok", ⟨1, 10⟩)] = none :=
  (get_session_expiry_spec "tok" 10 [("tok", ⟨1, 10⟩)]).1 ⟨1, 10⟩
    (by decide) (by decide)

/-! ### Claim C4 -/

/-- C4: `delete_session` returns true exactly once per stored token: the
first call on an existing token returns true and removes the binding,
the repeated call returns false, and a call on an unknown token returns
false and leaves the store unchanged. -/
theorem delete_session_true_exactly_once (token : String)
    (store : SessionStore) :
    ((store.lookup token).isSome = true →
        (delete_session token store).1 = true ∧
        ((delete_session token store).2).lookup token = none ∧
        (delete_session token (delete_session token store).2).1 = false) ∧
    ((store.lookup token).isSome = false →
        delete_session token store = (false, store)) := by
  constructor
  · intro h
    have h2 : (eraseKey token store).lookup token = none :=
      lookup_eraseKey_self token store
    refine ⟨by simp [delete_session, h], by simp [delete_session, h, h2],
            by simp [delete_session, h, h2]⟩
  · intro h
    simp [delete_session, h]

/-- C4 witness: deleting the stored token `"tok"` once returns true and
removes it; deleting it again returns false. -/
theorem delete_session_true_exactly_once_witness :
    (delete_session "tok" [("tok", (⟨1, 5⟩ : SessionData))]).1 = true ∧
    ((delete_session "tok" [("tok", (⟨1, 5⟩ : SessionData))]).2).lookup "tok" =
      none ∧
    (delete_session "tok"
        (delete_session "tok" [("tok", (⟨1, 5⟩ : SessionData))]).2).1 = false :=
  (delete_session_true_exactly_once "tok" [("tok", ⟨1, 5⟩)]).1 (by decide)

/-! ### Claim C5 -/

/-- C5: `authenticate_user` returns `none` both when the username is not
in the store and when it is but the password fails verification; the two
failure outcomes are the very same value `none`, hence observably
identical to the caller. -/
theorem authenticate_user_absent_on_failure (username password : String)
    (store : UserStore) :
    (store.lookup username = none →
        authenticate_user username password store = none) ∧
    (∀ u, store.lookup username = some u →
        verify_password password u.password_hash = false →
        authenticate_user username password store = none) := by
  constructor
  · intro h
    simp [authenticate_user, h]
  · intro u hu hv
    simp [authenticate_user, hu, hv]

/-- C5 witness: with one stored user `"alice"`, authentication fails to
`none` both for the unknown user `"bob"` and for `"alice"` with a wrong
password. -/
theorem authenticate_user_absent_on_failure_witness :
    authenticate_user "bob" "pw"
        [("alice", ⟨"alice@example.com", hash_password "pw" 0⟩)] = none ∧
    authenticate_user "alice" "wrong"
        [("alice", ⟨"alice@example.com", hash_password "pw" 0⟩)] = none :=
  ⟨(authenticate_user_absent_on_failure "bob" "pw"
      [("alice", ⟨"alice@example.com", hash_password "pw" 0⟩)]).1 (by decide),
   (authenticate_user_absent_on_failure "alice" "wrong"
      [("alice", ⟨"alice@example.com", hash_password "pw" 0⟩)]).2
      ⟨"alice@example.com", hash_password "pw" 0⟩ (by decide) (by decide)⟩

/-! ### Claim C10 -/

/-- C10: in the in-memory fallback, `create_user` on a username that is
already stored silently overwrites the record: the store afterwards maps
the username to the new record (new email and new password hash), that
record is returned, other keys are untouched, and no error or duplicate
signal exists (the function returns the plain record). -/
theorem create_user_overwrites_existing (username email password : String)
    (salt : Nat) (store : UserStore) (old : UserData)
    (_hold : store.lookup username = some old) :
    ((create_user username email password salt store).2).lookup username =
        some (create_user username email password salt store).1 ∧
    (create_user username email password salt store).1 =
        ⟨email, hash_password password salt⟩ ∧
    (∀ k, k ≠ username →
        ((create_user username email password salt store).2).lookup k =
          store.lookup k) := by
  refine ⟨?_, rfl, ?_⟩
  · simp [create_user, lookup_storeInsert_self]
  · intro k hk
    simp [create_user,
          lookup_storeInsert_ne username k
            ⟨email, hash_password password salt⟩ hk store]

/-- C10 witness: re-creating user `"u"` replaces the old record with the
new email and new password hash. -/
theorem create_user_overwrites_existing_witness :
    ((create_user "u" "new@example.com" "newpw" 2
        [("u", ⟨"old@example.com", hash_password "oldpw" 1⟩)]).2).lookup "u" =
      some (create_user "u" "new@example.com" "newpw" 2
        [("u", ⟨"old@example.com", hash_password "oldpw" 1⟩)]).1 ∧
    (create_user "u" "new@example.com" "newpw" 2
        [("u", ⟨"old@example.com", hash_password "oldpw" 1⟩)]).1 =
      ⟨"new@example.com", hash_password "newpw" 2⟩ := by
  have h := create_user_overwrites_existing "u" "new@example.com" "newpw" 2
      [("u", ⟨"old@example.com", hash_password "oldpw" 1⟩)]
      ⟨"old@example.com", hash_password "oldpw" 1⟩ (by decide)
  exact ⟨h.1, h.2.1⟩

/-! ### Claim C7 -/

/-- C7: `get_hana_connection` yields `none` (never an exception: every
failure path is a `return None` in the source) whenever one of the four
environment variables is unset, whenever the port value does not parse
as an integer, and whenever establishing the connection fails; and it
yields a handle only when all four are present (and nonempty, since
Python truthiness also rejects empty strings), the port parses, and the
connection succeeds. -/
theorem get_hana_connection_spec (env : HanaEnv) (connectOk : Bool) :
    ((env.address = none ∨ env.port = none ∨ env.user = none ∨
        env.password = none) → get_hana_connection env connectOk = none) ∧
    (∀ p, env.port = some p → pyParseInt p = none →
        get_hana_connection env connectOk = none) ∧
    (connectOk = false → get_hana_connection env connectOk = none) ∧
    (∀ c, get_hana_connection env connectOk = some c →
        (∃ a, env.address = some a ∧ a.isEmpty = false) ∧
        (∃ p, env.port = some p ∧ pyParseInt p = some c.port) ∧
        (∃ u, env.user = some u ∧ u.isEmpty = false) ∧
        (∃ pw, env.password = some pw ∧ pw.isEmpty = false) ∧
        connectOk = true) := by
  obtain ⟨oa, op, ou, opw⟩ := env
  cases oa with
  | none => simp [get_hana_connection]
  | some a =>
  cases op with
  | none => simp [get_hana_connection]
  | some p =>
  cases ou with
  | none => simp [get_hana_connection]
  | some u =>
  cases opw with
  | none => simp [get_hana_connection]
  | some pw =>
  by_cases hemp : (a.isEmpty || p.isEmpty || u.isEmpty || pw.isEmpty) = true
  · have hnone : get_hana_connection ⟨some a, some p, some u, some pw⟩
        connectOk = none := by
      simp [get_hana_connection, hemp]
    refine ⟨fun _ => hnone, fun _ _ _ => hnone, fun _ => hnone,
            fun c hc => ?_⟩
    rw [hnone] at hc
    cases hc
  · simp only [Bool.not_eq_true] at hemp
    cases hparse : pyParseInt p with
    | none =>
        have hnone : get_hana_connection ⟨some a, some p, some u, some pw⟩
            connectOk = none := by
          simp [get_hana_connection, hemp, hparse]
        refine ⟨fun _ => hnone, fun _ _ _ => hnone, fun _ => hnone,
                fun c hc => ?_⟩
        rw [hnone] at hc
        cases hc
    | some n =>
        cases connectOk with
        | false =>
            have hnone : get_hana_connection ⟨some a, some p, some u, some pw⟩
                false = none := by
              simp [get_hana_connection, hemp, hparse]
            refine ⟨fun _ => hnone, fun _ _ _ => hnone, fun _ => hnone,
                    fun c hc => ?_⟩
            rw [hnone] at hc
            cases hc
        | true =>
            have hsome : get_hana_connection ⟨some a, some p, some u, some pw⟩
                true = some ⟨a, n, u, pw⟩ := by
              simp [get_hana_connection, hemp, hparse]
            obtain ⟨⟨⟨hae, hpe⟩, hue⟩, hpwe⟩ :
                ((a.isEmpty = false ∧ p.isEmpty = false) ∧
                  u.isEmpty = false) ∧ pw.isEmpty = false := by
              simpa using hemp
            refine ⟨fun h => ?_, fun p' hp' hparse' => ?_, fun hok => ?_,
                    fun c hc => ?_⟩
            · rcases h with h | h | h | h <;> cases h
            · obtain rfl := Option.some.inj hp'
              rw [hparse] at hparse'
              cases hparse'
            · cases hok
            · rw [hsome] at hc
              obtain rfl := Option.some.inj hc
              exact ⟨⟨a, rfl, hae⟩, ⟨p, rfl, hparse⟩, ⟨u, rfl, hue⟩,
                     ⟨pw, rfl, hpwe⟩, rfl⟩

/-- C7 witness: a missing password, a non-numeric port, and a failed
connection attempt each yield `none`. -/
theorem get_hana_connection_spec_witness :
    get_hana_connection ⟨some "host", some "30015", some "u", none⟩ true =
      none ∧
    get_hana_connection ⟨some "host", some "abc", some "u", some "p"⟩ true =
      none ∧
    get_hana_connection ⟨some "host", some "30015", some "u", some "p"⟩
      false = none :=
  ⟨(get_hana_connection_spec ⟨some "host", some "30015", some "u", none⟩
      true).1 (Or.inr (Or.inr (Or.inr rfl))),
   (get_hana_connection_spec ⟨some "host", some "abc", some "u", some "p"⟩
      true).2.1 "abc" rfl (by decide),
   (get_hana_connection_spec ⟨some "host", some "30015", some "u", some "p"⟩
      false).2.2.1 rfl⟩

/-! ### Claim C9 -/

/-- C9: `get_sales_data` returns the empty table when the handle is
absent, and otherwise the fixed five-row mock table with the order id,
product, quantity and price columns, whatever the handle holds. -/
theorem get_sales_data_spec :
    get_sales_data none = DataFrame.emptyDF ∧
    (∀ c, get_sales_data (some c) = sales_mock_data) ∧
    sales_mock_data.rows.length = 5 ∧
    sales_mock_data.columns = ["OrderID", "Product", "Quantity", "Price"] :=
  ⟨rfl, fun _ => rfl, rfl, rfl⟩

/-! ### Claim C6 -/

/-- C6: the dashboard builder with an absent user yields the error pane;
with a user but a failed connection it yields the danger alert plus the
empty table pane; with a connection whose fetched table is empty it
yields the warning alert plus the empty table pane; with a nonempty
fetched table it yields that table verbatim in the pane.  Stated over
the builder with the fetch call abstracted (so the empty-table case is
expressible); the last conjunct records that `create_sales_dashboard` is
exactly this builder applied to the real `get_sales_data`. -/
theorem create_sales_dashboard_cases (fetch : Conn → DataFrame)
    (env : HanaEnv) (connectOk : Bool) (u : MockUser) :
    (create_sales_dashboard_with fetch none env connectOk none =
        ⟨View.markdownPane noUserErrorText, false⟩) ∧
    (get_hana_connection env connectOk = none →
        create_sales_dashboard_with fetch (some u) env connectOk none =
          ⟨View.column [dashboardTitle u,
              Component.alert connectFailText AlertType.danger,
              Component.dataFramePane "Sales Data" DataFrame.emptyDF],
           false⟩) ∧
    (∀ conn, get_hana_connection env connectOk = some conn →
        (fetch conn).isEmpty = true →
        create_sales_dashboard_with fetch (some u) env connectOk none =
          ⟨View.column [dashboardTitle u,
              Component.alert connectOkText AlertType.success,
              Component.alert noDataText AlertType.warning,
              Component.dataFramePane "Sales Data" DataFrame.emptyDF],
           true⟩) ∧
    (∀ conn, get_hana_connection env connectOk = some conn →
        (fetch conn).isEmpty = false →
        create_sales_dashboard_with fetch (some u) env connectOk none =
          ⟨View.column [dashboardTitle u,
              Component.alert connectOkText AlertType.success,
              Component.dataFramePane "Sales Data" (fetch conn)],
           true⟩) ∧
    (∀ user closeErr,
        create_sales_dashboard user env connectOk closeErr =
          create_sales_dashboard_with (fun c => get_sales_data (some c))
            user env connectOk closeErr) := by
  refine ⟨rfl, fun h => ?_, fun conn h hemp => ?_, fun conn h hemp => ?_,
          fun _ _ => rfl⟩
  · simp [create_sales_dashboard_with, h]
  · simp [create_sales_dashboard_with, h, hemp]
  · simp [create_sales_dashboard_with, h, hemp]

/-- C6 witness: with a reachable store whose fetch yields an empty
table, the build shows the success alert, the no-data warning and the
empty table pane. -/
theorem create_sales_dashboard_cases_witness :
    create_sales_dashboard_with (fun _ => DataFrame.emptyDF)
        (some ⟨"testuser"⟩)
        ⟨some "host", some "30015", some "u", some "p"⟩ true none =
      ⟨View.column [dashboardTitle ⟨"testuser"⟩,
          Component.alert connectOkText AlertType.success,
          Component.alert noDataText AlertType.warning,
          Component.dataFramePane "Sales Data" DataFrame.emptyDF],
       true⟩ :=
  (create_sales_dashboard_cases (fun _ => DataFrame.emptyDF)
      ⟨some "host", some "30015", some "u", some "p"⟩ true
      ⟨"testuser"⟩).2.2.1 ⟨"host", 30015, "u", "p"⟩ (by decide) rfl

/-! ### Claim C8 -/

/-- C8: in every dashboard build that obtained a connection, the builder
invokes `close()` on it afterwards (`closeAttempted` is its effect
trace), and if closing fails the view gains the close warning alert
while the table pane still appears (rendering is not aborted): the whole
view is still produced, with the pane last. -/
theorem dashboard_close_best_effort (u : MockUser) (env : HanaEnv)
    (connectOk : Bool) (closeErr : Option String) (conn : Conn)
    (hconn : get_hana_connection env connectOk = some conn) :
    (create_sales_dashboard (some u) env connectOk closeErr).closeAttempted =
      true ∧
    (∀ e, closeErr = some e →
        create_sales_dashboard (some u) env connectOk closeErr =
          ⟨View.column [dashboardTitle u,
              Component.alert connectOkText AlertType.success,
              Component.alert (closeFailText e) AlertType.warning,
              Component.dataFramePane "Sales Data" sales_mock_data],
           true⟩) := by
  constructor
  · simp [create_sales_dashboard, create_sales_dashboard_with, hconn]
  · intro e he
    subst he
    simp [create_sales_dashboard, create_sales_dashboard_with, hconn,
          get_sales_data, sales_mock_data, DataFrame.isEmpty]

/-- C8 witness: with the connection established and `close()` raising
`"boom"`, the build still returns the full view, close warning included
and table pane last. -/
theorem dashboard_close_best_effort_witness :
    (create_sales_dashboard (some ⟨"testuser"⟩)
        ⟨some "host", some "30015", some "u", some "p"⟩ true
        (some "boom")).closeAttempted = true ∧
    create_sales_dashboard (some ⟨"testuser"⟩)
        ⟨some "host", some "30015", some "u", some "p"⟩ true
        (some "boom") =
      ⟨View.column [dashboardTitle ⟨"testuser"⟩,
          Component.alert connectOkText AlertType.success,
          Component.alert (closeFailText "boom") AlertType.warning,
          Component.dataFramePane "Sales Data" sales_mock_data],
       true⟩ :=
  ⟨(dashboard_close_best_effort ⟨"testuser"⟩
      ⟨some "host", some "30015", some "u", some "p"⟩ true (some "boom")
      ⟨"host", 30015, "u", "p"⟩ (by decide)).1,
   (dashboard_close_best_effort ⟨"testuser"⟩
      ⟨some "host", some "30015", some "u", some "p"⟩ true (some "boom")
      ⟨"host", 30015, "u", "p"⟩ (by decide)).2 "boom" rfl⟩
